import Mathlib

/-!
Verification development for the zillow-market-tool repository.

The pipeline's SQL join (`transform/build_zip_metrics.sql`), the client's
level/statistics configuration and value selection (`app.js`), and the
exploratory client's aggregation paths (the second client script) are
shallowly embedded below.  JavaScript numbers are modelled as rationals;
a JavaScript property that may be `undefined` is an `Option`, and a value
that may be `null` is `JSVal.vnull`.
-/

namespace ZillowTool

/-! ## Data model for the SQL transform (`transform/build_zip_metrics.sql`) -/

/-- One row of `zhvi_clean` or `zori_clean`: `RegionName AS zcta`,
`"Date" AS date`, `Value`. -/
structure RawRow where
  zcta : String
  date : String
  value : ℚ
deriving DecidableEq, Repr

/-- One row of the joined `zip_metrics_monthly` table: `zori` is NULL
(`none`) when the rent side has no matching row. -/
structure MetricRecord where
  zcta : String
  date : String
  zhvi : ℚ
  zori : Option ℚ
deriving DecidableEq, Repr

/-- The `USING (zcta, date)` join condition. -/
def matchesKey (m r : RawRow) : Bool :=
  m.zcta == r.zcta && m.date == r.date

/-- `SELECT m.zcta, m.date, m.zhvi, r.zori FROM zhvi_clean m
LEFT JOIN zori_clean r USING (zcta, date)`: every left row is emitted;
with no right match the single emitted row carries NULL `zori`, otherwise
one row per matching right row. -/
def zip_metrics_monthly (zhvi_clean zori_clean : List RawRow) : List MetricRecord :=
  zhvi_clean.flatMap (fun m =>
    let ms := zori_clean.filter (fun r => matchesKey m r)
    if ms.isEmpty then [⟨m.zcta, m.date, m.value, none⟩]
    else ms.map (fun r => ⟨m.zcta, m.date, m.value, some r.value⟩))

/-! ## Client configuration (`app.js`) -/

/-- One entry of `GEOGRAPHIC_LEVELS`. -/
structure LevelConfig where
  zoom_threshold : ℤ
  file : String
deriving DecidableEq, Repr

/-- `GEOGRAPHIC_LEVELS` from `app.js`, in object-literal insertion order
(the order `Object.entries` iterates). -/
def GEOGRAPHIC_LEVELS : List (String × LevelConfig) :=
  [("region", ⟨4, "data_demo/aggregated/regions.geojson"⟩),
   ("state_region", ⟨6, "data_demo/aggregated/state_regions.geojson"⟩),
   ("state", ⟨8, "data_demo/aggregated/states.geojson"⟩),
   ("zipcode", ⟨10, "data_demo/zip_latest.geojson"⟩),
   ("h3", ⟨10, "data_demo/grid_latest.geojson"⟩)]

/-- Threshold lookup into `GEOGRAPHIC_LEVELS`. -/
def zoomThreshold (level : String) : Option ℤ :=
  (GEOGRAPHIC_LEVELS.find? (fun p => p.1 == level)).map (fun p => p.2.zoom_threshold)

/-- The body of the `for (const [level, config] of Object.entries(GEOGRAPHIC_LEVELS))`
loop in `updateGeographicLevel`: `newLevel` starts as `'region'` and the loop
`break`s at the first entry with `currentZoomLevel <= config.zoom_threshold`. -/
def levelLoopGo (z : ℤ) : List (String × LevelConfig) → String
  | [] => "region"
  | (level, config) :: rest =>
    if z ≤ config.zoom_threshold then level else levelLoopGo z rest

/-- The zoom-to-level selection performed by `updateGeographicLevel` in `app.js`. -/
def updateGeographicLevel (currentZoomLevel : ℤ) : String :=
  levelLoopGo currentZoomLevel GEOGRAPHIC_LEVELS

/-- The selection restated as a first-match search, following the claim's words:
the first level in the fixed order whose threshold is ≥ the zoom, else `region`. -/
def levelForZoomFirstMatch (z : ℤ) : String :=
  match GEOGRAPHIC_LEVELS.find? (fun p => z ≤ p.2.zoom_threshold) with
  | some p => p.1
  | none => "region"

/-! ## JavaScript property values

A feature's `properties` object maps names to values; an absent property is
`undefined` (modelled by a failing lookup, `none`), a present property may be
`null` (`JSVal.vnull`) or a number. -/

inductive JSVal where
  | vnum (q : ℚ)
  | vnull
deriving DecidableEq, Repr

/-- `properties[k]`: `none` models `undefined`. -/
def lookupProp (props : List (String × JSVal)) (k : String) : Option JSVal :=
  (props.find? (fun p => p.1 == k)).map Prod.snd

/-- JavaScript truthiness of the values we model: numbers are truthy unless
zero, `null` is falsy. -/
def truthy : JSVal → Bool
  | .vnum q => q != 0
  | .vnull => false

/-- `STATISTICAL_METHODS` from `app.js` (note: the `count` entry's value is
`'count'`, with no trailing underscore, unlike the other four). -/
def STATISTICAL_METHODS : List (String × String) :=
  [("average", "avg_"), ("median", "median_"), ("max", "max_"),
   ("min", "min_"), ("count", "count")]

/-- `STATISTICAL_METHODS[method]`. -/
def methodPrefix (method : String) : Option String :=
  (STATISTICAL_METHODS.find? (fun p => p.1 == method)).map Prod.snd

/-- `getStatisticalValue(properties, dataType, method)` from `app.js`:
read `` `${prefix}${dataType}` `` if defined, else `` `avg_${dataType}` ``
if defined, else `properties[dataType] || 0`.  An unknown `method` key makes
`prefix` the string `"undefined"`, as JavaScript template interpolation does. -/
def getStatisticalValue (properties : List (String × JSVal))
    (dataType method : String) : JSVal :=
  let pre := (methodPrefix method).getD "undefined"
  let propertyName := pre ++ dataType
  match lookupProp properties propertyName with
  | some v => v
  | none =>
    let avgPropertyName := "avg_" ++ dataType
    match lookupProp properties avgPropertyName with
    | some v => v
    | none =>
      match lookupProp properties dataType with
      | some v => if truthy v then v else .vnum 0
      | none => .vnum 0

/-! ## Exploratory client (the second client script): state aggregation -/

/-- A feature of `data_demo/zip_latest.geojson` as the client reads it:
`zcta`, `zhvi`, `zori` properties, the latter two possibly null/absent. -/
structure ZipFeature where
  zcta : String
  zhvi : Option ℚ
  zori : Option ℚ
deriving DecidableEq, Repr

/-- `zip.substring(0, 2)`: the state grouping key computed by
`loadStateLevelData` ("Simplified state grouping"). -/
def stateGroupKey (zip : String) : String := zip.take 2

/-- The members accumulated into `stateData[stateCode].zips` for a given
`stateCode` by `loadStateLevelData`'s `forEach`. -/
def groupMembers (features : List ZipFeature) (key : String) : List ZipFeature :=
  features.filter (fun f => stateGroupKey f.zcta == key)

/-- `x || 0` applied to a possibly-null numeric property: `null` becomes `0`
(and `0` stays `0`), so numerically this is `Option.getD · 0`. -/
def jsOrZero (v : Option ℚ) : ℚ := v.getD 0

/-- `stateData[stateCode].totalZori`, accumulated as
`totalZori += feature.properties.zori || 0` over the group's members. -/
def totalZori (fs : List ZipFeature) : ℚ := (fs.map (fun f => jsOrZero f.zori)).sum

/-- `stateData[stateCode].totalZhvi`, accumulated as
`totalZhvi += feature.properties.zhvi || 0`. -/
def totalZhvi (fs : List ZipFeature) : ℚ := (fs.map (fun f => jsOrZero f.zhvi)).sum

/-- `stateData[stateCode].count`, incremented once per member regardless of
which properties are null. -/
def groupCount (fs : List ZipFeature) : ℕ := fs.length

/-- `avgZori = data.totalZori / data.count` in `loadStateLevelData`. -/
def avgZoriState (fs : List ZipFeature) : ℚ := totalZori fs / groupCount fs

/-- `avgZhvi = data.totalZhvi / data.count` in `loadStateLevelData`. -/
def avgZhviState (fs : List ZipFeature) : ℚ := totalZhvi fs / groupCount fs

/-- The `zori` field produced by the exploratory client's `loadData` mapping:
`(zori === null || isNaN(zori)) ? 0 : zori` (an absent property is `NaN`
under `isNaN`, so both null and absent become `0`). -/
def loadDataZori (v : Option ℚ) : ℚ :=
  match v with
  | none => 0
  | some q => q

/-- Modelled from the spec: the authoritative ZIP→state-abbreviation
reference table demanded for the state aggregation level.  The table itself
(the aggregation engine, `transform/create_multi_level_aggregation.py`) is
not among the provided sources; two real entries suffice here: 02101 is
Boston, Massachusetts and 02901 is Providence, Rhode Island. -/
def zipToStateTable : List (String × String) :=
  [("02101", "MA"), ("02901", "RI")]

/-- Lookup in the authoritative table. -/
def stateOfZip (zip : String) : Option String :=
  (zipToStateTable.find? (fun p => p.1 == zip)).map Prod.snd

/-! ## Current client (`app.js`): overview statistics -/

/-- `features.map(f => f.properties.zhvi).filter(v => v && !isNaN(v))` from
`displayStats` in `app.js`: keep the truthy (non-null, nonzero) numbers. -/
def zhviValuesDisplay (features : List ZipFeature) : List ℚ :=
  (features.map (fun f => f.zhvi)).filterMap (fun v =>
    match v with
    | some q => if q != 0 then some q else none
    | none => none)

/-- Same filter over `zori`. -/
def zoriValuesDisplay (features : List ZipFeature) : List ℚ :=
  (features.map (fun f => f.zori)).filterMap (fun v =>
    match v with
    | some q => if q != 0 then some q else none
    | none => none)

/-- `avgZhvi = zhviValues.length > 0 ? zhviValues.reduce((a,b) => a+b, 0) / zhviValues.length : 0`
from `displayStats` in `app.js`. -/
def avgZhviDisplay (features : List ZipFeature) : ℚ :=
  let vs := zhviValuesDisplay features
  if vs.length > 0 then vs.sum / vs.length else 0

/-- The `avgZori` computation of the same function. -/
def avgZoriDisplay (features : List ZipFeature) : ℚ :=
  let vs := zoriValuesDisplay features
  if vs.length > 0 then vs.sum / vs.length else 0

/-- Modelled from the spec: the reduction the Aggregation Engine (not among
the provided sources) must emit for the average — the arithmetic mean of the
member value set with nulls excluded, and `null` (`none`), not zero, when
that set is empty. -/
def specAvg (vs : List ℚ) : Option ℚ :=
  if vs.length = 0 then none else some (vs.sum / vs.length)

/-- The member value set with nulls excluded (the spec's `V` for `zori`). -/
def zoriObservations (fs : List ZipFeature) : List ℚ := fs.filterMap (fun f => f.zori)

/-! ## Exploratory client: overview reductions (its `displayStats`) -/

/-- A row of the exploratory client's `zipData` array (`loadData` has already
coerced `zhvi`/`zori` to numbers and kept only `zhvi > 0`). -/
structure ZipRow where
  zip : String
  zhvi : ℚ
  zori : ℚ
  date : String
deriving DecidableEq, Repr

/-- `data.reduce((sum, item) => sum + item.zhvi, 0) / totalZips` where
`totalZips = data.length`. -/
def overviewAvg (data : List ZipRow) : ℚ :=
  (data.map (fun r => r.zhvi)).sum / data.length

/-- `Math.max(...)` over a spread, folded left; the empty case is `-∞` in
JavaScript, outside the rationals — every theorem below assumes a nonempty
list, and the `[]` equation is never exercised. -/
def jsMaxList : List ℚ → ℚ
  | [] => 0
  | x :: xs => xs.foldl max x

/-- `Math.min(...)` over a spread. -/
def jsMinList : List ℚ → ℚ
  | [] => 0
  | x :: xs => xs.foldl min x

/-- `Math.max(...data.map(item => item.zhvi))` from the exploratory
`displayStats`. -/
def overviewMax (data : List ZipRow) : ℚ := jsMaxList (data.map (fun r => r.zhvi))

/-- `Math.min(...data.map(item => item.zhvi))`. -/
def overviewMin (data : List ZipRow) : ℚ := jsMinList (data.map (fun r => r.zhvi))

/-- Modelled from the spec: the Aggregation Engine's median (its code is not
among the provided sources) — middle value of the set sorted ascending, and
for an even-sized set the mean of the two middle values. -/
def specMedian (vs : List ℚ) : ℚ :=
  let s := vs.mergeSort (· ≤ ·)
  let n := vs.length
  if n % 2 = 1 then s.getD (n / 2) 0
  else (s.getD (n / 2 - 1) 0 + s.getD (n / 2) 0) / 2

/-! ## Client data loading (`app.js`): `loadTimeSeriesData` / `loadData` -/

/-- Does the character list `pat` lead (begin) `s`? -/
def charsLead : List Char → List Char → Bool
  | [], _ => true
  | _ :: _, [] => false
  | a :: as, b :: bs => a == b && charsLead as bs

/-- Does `s` contain `pat` as a contiguous run?  Models the JavaScript
`String.prototype.includes` used for the content-type check. -/
def charsHas (pat : List Char) : List Char → Bool
  | [] => charsLead pat []
  | c :: t => charsLead pat (c :: t) || charsHas pat t

/-- `contentType.includes(pat)`. -/
def jsIncludes (s pat : String) : Bool := charsHas pat.toList s.toList

/-- The observable pieces of a `fetch` response that the two loaders
inspect: `ok`, `status`, `statusText`, the `content-type` header (`none`
when the header is absent, i.e. `null`), and what `response.json()` yields —
either a parse-error message or the parsed feature collection. -/
structure FetchResponse where
  ok : Bool
  status : ℕ
  statusText : String
  contentType : Option String
  jsonResult : Except String (List ZipFeature)
deriving Repr

/-- The content-type guard shared by `loadTimeSeriesData` and `loadData`:
`!contentType || (!contentType.includes('application/json') &&
!contentType.includes('application/geo+json'))`. -/
def badContentType (ct : Option String) : Bool :=
  match ct with
  | none => true
  | some s => !(jsIncludes s "application/json") && !(jsIncludes s "application/geo+json")

/-- What a loader leaves in its UI region: either the rendered data, or the
inline error panel that the `catch` block assigns to the region's
`innerHTML` (replacing whatever was there). -/
inductive LoadOutcome where
  | rendered (features : List ZipFeature)
  | errorShown (region : String) (innerHtml : String)
deriving Repr

/-- The inline error panel written by the `catch` blocks of
`loadTimeSeriesData` and `loadData` in `app.js`; both interpolate
`error.message` after the `Error:` label. -/
def errorPanelHtml (message : String) : String :=
  "<h3>⚠️ Data Loading Error</h3><p>Could not load data. Please check the console for details.</p><p><strong>Error:</strong> " ++ message ++ "</p>"

/-- `new Error(...)` message thrown for a non-ok response:
`` `HTTP ${response.status}: ${response.statusText}` ``. -/
def httpErrorMessage (resp : FetchResponse) : String :=
  "HTTP " ++ toString resp.status ++ ": " ++ resp.statusText

/-- `new Error(...)` message thrown for a wrong content type:
`` `Expected JSON but got: ${contentType}` `` (a missing header interpolates
as the string `null`). -/
def contentTypeErrorMessage (ct : Option String) : String :=
  "Expected JSON but got: " ++ (match ct with | none => "null" | some s => s)

/-- The control flow of `loadData` in `app.js` (lines 491–523): throw on
non-ok status, then on a non-JSON content type, then surface any JSON parse
error; every `throw` lands in the `catch`, which replaces the `stats`
region's content with the inline error panel. -/
def loadData (resp : FetchResponse) : LoadOutcome :=
  if !resp.ok then .errorShown "stats" (errorPanelHtml (httpErrorMessage resp))
  else if badContentType resp.contentType then
    .errorShown "stats" (errorPanelHtml (contentTypeErrorMessage resp.contentType))
  else
    match resp.jsonResult with
    | .error e => .errorShown "stats" (errorPanelHtml e)
    | .ok features => .rendered features

/-- The control flow of `loadTimeSeriesData` in `app.js` (lines 167–200):
identical guards, with the `map` region receiving the error panel. -/
def loadTimeSeriesData (resp : FetchResponse) : LoadOutcome :=
  if !resp.ok then .errorShown "map" (errorPanelHtml (httpErrorMessage resp))
  else if badContentType resp.contentType then
    .errorShown "map" (errorPanelHtml (contentTypeErrorMessage resp.contentType))
  else
    match resp.jsonResult with
    | .error e => .errorShown "map" (errorPanelHtml e)
    | .ok features => .rendered features

/-! ## Helper lemmas -/

theorem foldl_min_le_start (xs : List ℚ) (a : ℚ) : xs.foldl min a ≤ a := by
  induction xs generalizing a with
  | nil => simp
  | cons x xs ih =>
    simpa using le_trans (ih (min a x)) (min_le_left a x)

theorem foldl_min_le_mem {x : ℚ} (xs : List ℚ) (a : ℚ) (hx : x ∈ xs) :
    xs.foldl min a ≤ x := by
  induction xs generalizing a with
  | nil => cases hx
  | cons y ys ih =>
    rcases List.mem_cons.mp hx with h | h
    · subst h
      simpa using le_trans (foldl_min_le_start ys (min a x)) (min_le_right a x)
    · simpa using ih (min a y) h

theorem start_le_foldl_max (xs : List ℚ) (a : ℚ) : a ≤ xs.foldl max a := by
  induction xs generalizing a with
  | nil => simp
  | cons x xs ih =>
    simpa using le_trans (le_max_left a x) (ih (max a x))

theorem mem_le_foldl_max {x : ℚ} (xs : List ℚ) (a : ℚ) (hx : x ∈ xs) :
    x ≤ xs.foldl max a := by
  induction xs generalizing a with
  | nil => cases hx
  | cons y ys ih =>
    rcases List.mem_cons.mp hx with h | h
    · subst h
      simpa using le_trans (le_max_right a x) (start_le_foldl_max ys (max a x))
    · simpa using ih (max a y) h

theorem jsMinList_le_mem {x : ℚ} {l : List ℚ} (hx : x ∈ l) : jsMinList l ≤ x := by
  cases l with
  | nil => cases hx
  | cons y ys =>
    rcases List.mem_cons.mp hx with h | h
    · subst h; exact foldl_min_le_start ys x
    · exact foldl_min_le_mem ys y h

theorem mem_le_jsMaxList {x : ℚ} {l : List ℚ} (hx : x ∈ l) : x ≤ jsMaxList l := by
  cases l with
  | nil => cases hx
  | cons y ys =>
    rcases List.mem_cons.mp hx with h | h
    · subst h; exact start_le_foldl_max ys x
    · exact mem_le_foldl_max ys y h

theorem jsMinList_le_avg {l : List ℚ} (hl : l ≠ []) :
    jsMinList l ≤ l.sum / l.length := by
  have hlen : 0 < (l.length : ℚ) := by
    have := List.length_pos.mpr hl
    exact_mod_cast this
  have hsum : (l.length : ℚ) * jsMinList l ≤ l.sum := by
    have h := List.card_nsmul_le_sum l (jsMinList l) (fun x hx => jsMinList_le_mem hx)
    simpa [nsmul_eq_mul] using h
  have := (div_le_div_iff_of_pos_right hlen).mpr hsum
  calc jsMinList l = (l.length : ℚ) * jsMinList l / l.length := by
        field_simp
    _ ≤ l.sum / l.length := this

theorem avg_le_jsMaxList {l : List ℚ} (hl : l ≠ []) :
    l.sum / l.length ≤ jsMaxList l := by
  have hlen : 0 < (l.length : ℚ) := by
    have := List.length_pos.mpr hl
    exact_mod_cast this
  have hsum : l.sum ≤ (l.length : ℚ) * jsMaxList l := by
    have h := List.sum_le_card_nsmul l (jsMaxList l) (fun x hx => mem_le_jsMaxList hx)
    simpa [nsmul_eq_mul] using h
  have := (div_le_div_iff_of_pos_right hlen).mpr hsum
  calc l.sum / l.length ≤ (l.length : ℚ) * jsMaxList l / l.length := this
    _ = jsMaxList l := by field_simp

theorem jsMinList_le_specMedian {l : List ℚ} (hl : l ≠ []) :
    jsMinList l ≤ specMedian l := by
  have hlen : 0 < l.length := List.length_pos.mpr hl
  have hslen : (l.mergeSort (· ≤ ·)).length = l.length := List.length_mergeSort l
  have hmem : ∀ i (hi : i < l.length), jsMinList l ≤ (l.mergeSort (· ≤ ·)).getD i 0 := by
    intro i hi
    have hi' : i < (l.mergeSort (· ≤ ·)).length := by omega
    rw [List.getD_eq_getElem _ _ hi']
    exact jsMinList_le_mem (List.mem_mergeSort.mp (List.getElem_mem hi'))
  unfold specMedian
  by_cases hpar : l.length % 2 = 1
  · rw [if_pos hpar]
    exact hmem _ (by omega)
  · rw [if_neg hpar]
    have h1 := hmem (l.length / 2 - 1) (by omega)
    have h2 := hmem (l.length / 2) (by omega)
    linarith

theorem specMedian_le_jsMaxList {l : List ℚ} (hl : l ≠ []) :
    specMedian l ≤ jsMaxList l := by
  have hlen : 0 < l.length := List.length_pos.mpr hl
  have hslen : (l.mergeSort (· ≤ ·)).length = l.length := List.length_mergeSort l
  have hmem : ∀ i (hi : i < l.length), (l.mergeSort (· ≤ ·)).getD i 0 ≤ jsMaxList l := by
    intro i hi
    have hi' : i < (l.mergeSort (· ≤ ·)).length := by omega
    rw [List.getD_eq_getElem _ _ hi']
    exact mem_le_jsMaxList (List.mem_mergeSort.mp (List.getElem_mem hi'))
  unfold specMedian
  by_cases hpar : l.length % 2 = 1
  · rw [if_pos hpar]
    exact hmem _ (by omega)
  · rw [if_neg hpar]
    have h1 := hmem (l.length / 2 - 1) (by omega)
    have h2 := hmem (l.length / 2) (by omega)
    linarith

theorem charsLead_append (pat rest : List Char) : charsLead pat (pat ++ rest) = true := by
  induction pat with
  | nil => rfl
  | cons c cs ih => simp [charsLead, ih]

theorem charsHas_of_lead {pat s : List Char} (h : charsLead pat s = true) :
    charsHas pat s = true := by
  cases s with
  | nil => simpa [charsHas] using h
  | cons c t => simp [charsHas, h]

theorem charsHas_of_append (pat pre post : List Char) :
    charsHas pat (pre ++ (pat ++ post)) = true := by
  induction pre with
  | nil => exact charsHas_of_lead (by simpa using charsLead_append pat post)
  | cons c cs ih =>
    simp only [List.cons_append]
    rw [charsHas]
    simp [ih]

/-! ## Claim theorems -/

/-- C1: the joined `zip_metrics_monthly` stream is the LEFT join of the
home-value stream with the rent-index stream keyed on `(zcta, date)` with
home-value driving: a left row with no matching rent row appears in the
output with `zori` NULL, and a `(zcta, date)` key carried by no home-value
row never appears in the output. -/
theorem c1_left_join_driving_side :
    ∀ (zhviClean zoriClean : List RawRow) (m : RawRow) (z d : String),
      ((m ∈ zhviClean ∧ ∀ r ∈ zoriClean, matchesKey m r = false) →
        (⟨m.zcta, m.date, m.value, none⟩ : MetricRecord)
          ∈ zip_metrics_monthly zhviClean zoriClean) ∧
      ((∀ h ∈ zhviClean, ¬(h.zcta = z ∧ h.date = d)) →
        ∀ out ∈ zip_metrics_monthly zhviClean zoriClean,
          ¬(out.zcta = z ∧ out.date = d)) := by
  intro zhviClean zoriClean m z d
  constructor
  · rintro ⟨hm, hnone⟩
    apply List.mem_flatMap.mpr
    refine ⟨m, hm, ?_⟩
    have hfil : zoriClean.filter (fun r => matchesKey m r) = [] :=
      List.filter_eq_nil_iff.mpr (fun r hr => by simp [hnone r hr])
    simp [hfil]
  · intro hno out hout hkey
    obtain ⟨h, hh, hf⟩ := List.mem_flatMap.mp hout
    have hfields : out.zcta = h.zcta ∧ out.date = h.date := by
      simp only [] at hf
      split at hf
      · simp at hf
        subst hf
        exact ⟨rfl, rfl⟩
      · obtain ⟨r, _, rfl⟩ := List.mem_map.mp hf
        exact ⟨rfl, rfl⟩
    exact hno h hh ⟨hfields.1 ▸ hkey.1, hfields.2 ▸ hkey.2⟩

/-- C1 witness: a concrete left row with no rent match is emitted with NULL
`zori`, and a rent-only key is absent from the joined output. -/
theorem c1_left_join_driving_side_witness :
    (⟨"02101", "2024-03", 500000, none⟩ : MetricRecord)
      ∈ zip_metrics_monthly [⟨"02101", "2024-03", 500000⟩] [⟨"02108", "2024-03", 2000⟩] ∧
    ∀ out ∈ zip_metrics_monthly [⟨"02101", "2024-03", 500000⟩] [⟨"02108", "2024-03", 2000⟩],
      ¬(out.zcta = "02108" ∧ out.date = "2024-03") :=
  ⟨(c1_left_join_driving_side [⟨"02101", "2024-03", 500000⟩] [⟨"02108", "2024-03", 2000⟩]
      ⟨"02101", "2024-03", 500000⟩ "02108" "2024-03").1 ⟨by decide, by decide⟩,
   (c1_left_join_driving_side [⟨"02101", "2024-03", 500000⟩] [⟨"02108", "2024-03", 2000⟩]
      ⟨"02101", "2024-03", 500000⟩ "02108" "2024-03").2 (by decide)⟩

/-- C2: the state grouping key the client's `loadStateLevelData` actually
computes is the numeric ZIP prefix `zip.substring(0, 2)`: the Massachusetts
ZIP 02101 and the Rhode Island ZIP 02901 both land in the single group
`"02"` even though the authoritative ZIP→state table assigns them different
state abbreviations — contradicting the claim's authoritative-table
requirement. -/
theorem c2_state_grouping_is_prefix_heuristic :
    stateGroupKey "02101" = "02" ∧ stateGroupKey "02901" = "02" ∧
    groupMembers [⟨"02101", some 500000, some 2000⟩, ⟨"02901", some 300000, some 1500⟩] "02"
      = [⟨"02101", some 500000, some 2000⟩, ⟨"02901", some 300000, some 1500⟩] ∧
    stateOfZip "02101" = some "MA" ∧ stateOfZip "02901" = some "RI" ∧
    (some "MA" : Option String) ≠ some "RI" := by
  decide

/-- C3: the client's state aggregation treats a null `zori` as zero — the
record's `zori || 0` contributes `0` to `totalZori` while the record still
increments `count`, so the emitted average over `{200, null}` is `100`
instead of the nulls-excluded mean `200`; and `loadData` coerces a null
`zori` directly to `0`. -/
theorem c3_null_zori_coerced_to_zero :
    avgZoriState [⟨"02101", some 100, some 200⟩, ⟨"02102", some 100, none⟩] = 100 ∧
    specAvg (zoriObservations [⟨"02101", some 100, some 200⟩, ⟨"02102", some 100, none⟩])
      = some 200 ∧
    (100 : ℚ) ≠ 200 ∧
    loadDataZori none = 0 := by
  refine ⟨?_, ?_, by norm_num, rfl⟩
  · norm_num [avgZoriState, totalZori, groupCount, jsOrZero]
  · norm_num [specAvg, zoriObservations, List.filterMap]

/-- C5: on an empty member value set the client's `displayStats` emits the
number `0` for the average (and then displays `$0`), not `null`: the code's
average of no zhvi/zori observations is `0`, whereas the spec's reduction is
`none`. -/
theorem c5_empty_group_average_is_zero_not_null :
    avgZhviDisplay [] = 0 ∧ avgZoriDisplay [] = 0 ∧
    specAvg (zhviValuesDisplay []) = none ∧
    avgZhviDisplay [⟨"02101", none, none⟩] = 0 ∧
    specAvg (zhviValuesDisplay [⟨"02101", none, none⟩]) = none := by
  decide

/-- C7: the zoom-activation thresholds in `GEOGRAPHIC_LEVELS` increase
strictly from region through state_region and state to zipcode, and h3
shares the zipcode threshold. -/
theorem c7_zoom_thresholds_monotone :
    ∃ tr tsr ts tz th : ℤ,
      zoomThreshold "region" = some tr ∧ zoomThreshold "state_region" = some tsr ∧
      zoomThreshold "state" = some ts ∧ zoomThreshold "zipcode" = some tz ∧
      zoomThreshold "h3" = some th ∧
      tr < tsr ∧ tsr < ts ∧ ts < tz ∧ tz = th :=
  ⟨4, 6, 8, 10, 10, by decide⟩

/-- C4 counterexample: on a feature whose bare `zhvi` property is present
but `null` (and with no method-prefixed or `avg_` property),
`getStatisticalValue` returns the number `0`, not the present bare
property's value, because the last tier is `properties[dataType] || 0`. -/
theorem c4_bare_null_returns_zero :
    getStatisticalValue [("zhvi", .vnull)] "zhvi" "average" = .vnum 0 ∧
    methodPrefix "average" = some "avg_" ∧
    lookupProp [("zhvi", .vnull)] ("avg_" ++ "zhvi") = none ∧
    lookupProp [("zhvi", .vnull)] "zhvi" = some .vnull ∧
    JSVal.vnum 0 ≠ JSVal.vnull := by
  decide

/-- C4 (amended): for a known method key, `getStatisticalValue` returns the
`prefix ++ metric` property when defined, else the `avg_ ++ metric` property
when defined, else the bare `metric` property when present with a truthy
(non-null, nonzero) value, else the number `0`. -/
theorem c4_three_tier_fallback :
    ∀ (props : List (String × JSVal)) (dataType method pre : String),
      methodPrefix method = some pre →
      ((∀ v, lookupProp props (pre ++ dataType) = some v →
          getStatisticalValue props dataType method = v) ∧
       (lookupProp props (pre ++ dataType) = none →
          ∀ v, lookupProp props ("avg_" ++ dataType) = some v →
            getStatisticalValue props dataType method = v) ∧
       (lookupProp props (pre ++ dataType) = none →
          lookupProp props ("avg_" ++ dataType) = none →
          ∀ v, lookupProp props dataType = some v → truthy v = true →
            getStatisticalValue props dataType method = v) ∧
       (lookupProp props (pre ++ dataType) = none →
          lookupProp props ("avg_" ++ dataType) = none →
          (lookupProp props dataType = none ∨
            ∃ v, lookupProp props dataType = some v ∧ truthy v = false) →
          getStatisticalValue props dataType method = .vnum 0)) := by
  intro props dataType method pre hpre
  refine ⟨?_, ?_, ?_, ?_⟩
  · intro v hv
    simp [getStatisticalValue, hpre, hv]
  · intro h1 v hv
    simp [getStatisticalValue, hpre, h1, hv]
  · intro h1 h2 v hv ht
    simp [getStatisticalValue, hpre, h1, h2, hv, ht]
  · intro h1 h2 h3
    rcases h3 with h | ⟨v, hv, ht⟩ <;>
      simp [getStatisticalValue, hpre, h1, h2, *]

/-- C4 witness: a defined `median_zhvi` property is returned for the
`median` method. -/
theorem c4_three_tier_fallback_witness :
    getStatisticalValue [("median_zhvi", .vnum 5)] "zhvi" "median" = .vnum 5 :=
  (c4_three_tier_fallback [("median_zhvi", .vnum 5)] "zhvi" "median" "median_"
    (by decide)).1 (.vnum 5) (by decide)

/-- C6: over a non-empty member value set, the exploratory `displayStats`
reductions satisfy `min ≤ avg ≤ max`, and the spec's median of the same
value set lies between the same extrema. -/
theorem c6_min_avg_median_max_order :
    ∀ data : List ZipRow, data ≠ [] →
      overviewMin data ≤ overviewAvg data ∧ overviewAvg data ≤ overviewMax data ∧
      overviewMin data ≤ specMedian (data.map (fun r => r.zhvi)) ∧
      specMedian (data.map (fun r => r.zhvi)) ≤ overviewMax data := by
  intro data hd
  have hmap : data.map (fun r => r.zhvi) ≠ [] := by
    simpa using hd
  refine ⟨?_, ?_, ?_, ?_⟩
  · have h := jsMinList_le_avg hmap
    simpa [overviewAvg, overviewMin] using h
  · have h := avg_le_jsMaxList hmap
    simpa [overviewAvg, overviewMax] using h
  · exact jsMinList_le_specMedian hmap
  · exact specMedian_le_jsMaxList hmap

/-- C6 witness at the spec's two-member example (500000 and 700000). -/
theorem c6_min_avg_median_max_order_witness :
    overviewMin ([⟨"02101", 500000, 0, "2024-03"⟩, ⟨"02102", 700000, 0, "2024-03"⟩] : List ZipRow)
      ≤ overviewAvg [⟨"02101", 500000, 0, "2024-03"⟩, ⟨"02102", 700000, 0, "2024-03"⟩] ∧
    overviewAvg ([⟨"02101", 500000, 0, "2024-03"⟩, ⟨"02102", 700000, 0, "2024-03"⟩] : List ZipRow)
      ≤ overviewMax [⟨"02101", 500000, 0, "2024-03"⟩, ⟨"02102", 700000, 0, "2024-03"⟩] ∧
    overviewMin ([⟨"02101", 500000, 0, "2024-03"⟩, ⟨"02102", 700000, 0, "2024-03"⟩] : List ZipRow)
      ≤ specMedian (([⟨"02101", 500000, 0, "2024-03"⟩, ⟨"02102", 700000, 0, "2024-03"⟩] : List ZipRow).map
          (fun r => r.zhvi)) ∧
    specMedian (([⟨"02101", 500000, 0, "2024-03"⟩, ⟨"02102", 700000, 0, "2024-03"⟩] : List ZipRow).map
        (fun r => r.zhvi))
      ≤ overviewMax [⟨"02101", 500000, 0, "2024-03"⟩, ⟨"02102", 700000, 0, "2024-03"⟩] :=
  c6_min_avg_median_max_order
    [⟨"02101", 500000, 0, "2024-03"⟩, ⟨"02102", 700000, 0, "2024-03"⟩] (by decide)

/-- C8: every fetch or parse failure (non-ok status, wrong/missing content
type, JSON parse error) makes both loaders replace their UI region's content
with the inline error panel built from the failure description — never the
rendered outcome — and the panel contains the failure message verbatim. -/
theorem c8_failures_show_inline_error :
    ∀ resp : FetchResponse,
      (resp.ok = false →
        loadData resp = .errorShown "stats" (errorPanelHtml (httpErrorMessage resp)) ∧
        loadTimeSeriesData resp
          = .errorShown "map" (errorPanelHtml (httpErrorMessage resp))) ∧
      (resp.ok = true → badContentType resp.contentType = true →
        loadData resp
          = .errorShown "stats" (errorPanelHtml (contentTypeErrorMessage resp.contentType)) ∧
        loadTimeSeriesData resp
          = .errorShown "map" (errorPanelHtml (contentTypeErrorMessage resp.contentType))) ∧
      (∀ e, resp.ok = true → badContentType resp.contentType = false →
        resp.jsonResult = .error e →
        loadData resp = .errorShown "stats" (errorPanelHtml e) ∧
        loadTimeSeriesData resp = .errorShown "map" (errorPanelHtml e)) ∧
      (∀ msg : String, charsHas msg.toList (errorPanelHtml msg).toList = true) := by
  intro resp
  refine ⟨?_, ?_, ?_, ?_⟩
  · intro hok
    constructor <;> simp [loadData, loadTimeSeriesData, hok]
  · intro hok hct
    constructor <;> simp [loadData, loadTimeSeriesData, hok, hct]
  · intro e hok hct hj
    constructor <;> simp [loadData, loadTimeSeriesData, hok, hct, hj]
  · intro msg
    show charsHas msg.toList (String.toList _) = true
    have : (errorPanelHtml msg).toList
        = ("<h3>⚠️ Data Loading Error</h3><p>Could not load data. Please check the console for details.</p><p><strong>Error:</strong> ").toList
          ++ (msg.toList ++ ("</p>" : String).toList) := by
      simp [errorPanelHtml, String.toList]
    rw [this]
    exact charsHas_of_append _ _ _

/-- C8 witness: a 404 response makes both loaders show the inline HTTP error
panel in their regions. -/
theorem c8_failures_show_inline_error_witness :
    loadData ⟨false, 404, "Not Found", some "text/html", .error "boom"⟩
      = .errorShown "stats"
          (errorPanelHtml (httpErrorMessage ⟨false, 404, "Not Found", some "text/html", .error "boom"⟩)) ∧
    loadTimeSeriesData ⟨false, 404, "Not Found", some "text/html", .error "boom"⟩
      = .errorShown "map"
          (errorPanelHtml (httpErrorMessage ⟨false, 404, "Not Found", some "text/html", .error "boom"⟩)) :=
  (c8_failures_show_inline_error ⟨false, 404, "Not Found", some "text/html", .error "boom"⟩).1 rfl

/-- C9: the `count` method's prefix is the underscore-less string `count`,
so the tier-1 lookup key is `count ++ metric` (e.g. `countzhvi`), which can
never equal a `count_`-style field name; on properties where that key is
undefined the function falls back to the `avg_` field (or further down the
chain to `0`). -/
theorem c9_count_method_lookup_misses :
    methodPrefix "count" = some "count" ∧
    (∀ m : String, ("count" ++ m) ≠ ("count_" ++ m)) ∧
    (∀ (props : List (String × JSVal)) (m : String) (v : JSVal),
      lookupProp props ("count" ++ m) = none →
      lookupProp props ("avg_" ++ m) = some v →
      getStatisticalValue props m "count" = v) ∧
    (∀ (props : List (String × JSVal)) (m : String),
      lookupProp props ("count" ++ m) = none →
      lookupProp props ("avg_" ++ m) = none →
      lookupProp props m = none →
      getStatisticalValue props m "count" = .vnum 0) := by
  refine ⟨by decide, ?_, ?_, ?_⟩
  · intro m h
    have h2 := congrArg String.length h
    simp only [String.length_append] at h2
    have h5 : ("count" : String).length = 5 := by decide
    have h6 : ("count_" : String).length = 6 := by decide
    rw [h5, h6] at h2
    omega
  · intro props m v h1 h2
    simp [getStatisticalValue, methodPrefix, STATISTICAL_METHODS, h1, h2]
  · intro props m h1 h2 h3
    simp [getStatisticalValue, methodPrefix, STATISTICAL_METHODS, h1, h2, h3]

/-- C9 witness: on a feature carrying `count_zhvi` and `avg_zhvi`, the
`count` method returns the `avg_zhvi` value, not the count. -/
theorem c9_count_method_lookup_misses_witness :
    getStatisticalValue [("count_zhvi", .vnum 7), ("avg_zhvi", .vnum 3)] "zhvi" "count"
      = .vnum 3 :=
  c9_count_method_lookup_misses.2.2.1
    [("count_zhvi", .vnum 7), ("avg_zhvi", .vnum 3)] "zhvi" (.vnum 3) (by decide) (by decide)

/-- C10: `updateGeographicLevel` selects the first level in the fixed order
region, state_region, state, zipcode, h3 whose threshold is ≥ the zoom, and
defaults to `region` when the zoom exceeds every threshold — so every zoom
of 11 or more selects the coarsest level `region`. -/
theorem c10_zoom_selection_first_match :
    (∀ z : ℤ, updateGeographicLevel z = levelForZoomFirstMatch z) ∧
    (∀ z : ℤ, 11 ≤ z → updateGeographicLevel z = "region") := by
  constructor
  · intro z
    by_cases h4 : z ≤ (4 : ℤ) <;> by_cases h6 : z ≤ (6 : ℤ) <;>
      by_cases h8 : z ≤ (8 : ℤ) <;> by_cases h10 : z ≤ (10 : ℤ) <;>
      simp [updateGeographicLevel, levelForZoomFirstMatch, levelLoopGo,
        GEOGRAPHIC_LEVELS, List.find?, h4, h6, h8, h10]
  · intro z hz
    have h4 : ¬ z ≤ (4 : ℤ) := by omega
    have h6 : ¬ z ≤ (6 : ℤ) := by omega
    have h8 : ¬ z ≤ (8 : ℤ) := by omega
    have h10 : ¬ z ≤ (10 : ℤ) := by omega
    simp [updateGeographicLevel, levelLoopGo, GEOGRAPHIC_LEVELS, h4, h6, h8, h10]

/-- C10 witness: zoom 11 selects `region`. -/
theorem c10_zoom_selection_first_match_witness :
    updateGeographicLevel 11 = "region" :=
  c10_zoom_selection_first_match.2 11 (by decide)

end ZillowTool
